import Mathlib

/-
Formal model of the wbroker telemetry agent, file src/src/wbroker/app.py.
The Python program runs three threads over one shared dict guarded by one
global lock.  Floating point numbers are modelled as rationals; the shared
dict data is modelled as an insertion-ordered association list, matching
the semantics of a Python dict restricted to the operations the program
uses (item read, item write, update, truthiness, items iteration).
-/

/-- A Python dict mapping string keys to float values, as used for the
shared measurement dict data in app.py. -/
abbrev Store := List (String × ℚ)

/-- Writing one key of a Python dict: replace in place when the key is
present, append at the end otherwise (insertion order preserved). -/
def storeSet : Store → String → ℚ → Store
  | [], k, v => [(k, v)]
  | (k', v') :: rest, k, v =>
      if k' = k then (k, v) :: rest else (k', v') :: storeSet rest k v

/-- Reading one key of a Python dict; none models a KeyError. -/
def storeGet : Store → String → Option ℚ
  | [], _ => none
  | (k', v') :: rest, k => if k' = k then some v' else storeGet rest k

/-- The key list of the dict, in insertion order. -/
def storeKeys (s : Store) : List String := s.map Prod.fst

/-- Python dict.update with a dict argument: write each item of the
argument in order.  Models the call data.update(sensor.get_dict()) at
app.py line 124. -/
def dictUpdate (s : Store) (kvs : List (String × ℚ)) : Store :=
  kvs.foldl (fun a kv => storeSet a kv.1 kv.2) s

/-- The effect of one storeSet on the key list. -/
def insertKey (ks : List String) (k : String) : List String :=
  if k ∈ ks then ks else ks ++ [k]

/-- One measurement as produced by bme280.read_all(): the three fields the
program reads from it.  Immutable value type. -/
structure Reading where
  temperature : ℚ
  humidity : ℚ
  pressure : ℚ
deriving DecidableEq

/-- The association list Bme280Sensor.get_dict builds from a stored
reading (app.py lines 105-110), in source order. -/
def readingFields (r : Reading) : List (String × ℚ) :=
  [("temperature", r.temperature), ("humidity", r.humidity), ("pressure", r.pressure)]

/-- Bme280Sensor.get_dict (app.py lines 105-110): reads self.data, which
is None until the first successful measure; dereferencing None raises, so
the None case returns none. -/
def get_dict : Option Reading → Option (List (String × ℚ))
  | none => none
  | some d => some (readingFields d)

/-- calc_tdi (app.py lines 113-114), the derived comfort index. -/
def calc_tdi (temperature humidity : ℚ) : ℚ :=
  0.81 * temperature + 0.01 * humidity * (0.99 * temperature - 14.3) + 46.3

/-- Left padding with a fill character up to a minimum width, as Python
numeric format specs do with their width field. -/
def padLeft (c : Char) (w : ℕ) (s : String) : String :=
  if s.length < w then String.mk (List.replicate (w - s.length) c) ++ s else s

/-- Round the fraction a / b (with b positive) to the nearest natural
number with ties to even, the rounding Python uses when formatting floats
with a fixed number of decimals. -/
def roundHalfEvenNat (a b : ℕ) : ℕ :=
  let f := a / b
  let r := a % b
  if 2 * r < b then f
  else if b < 2 * r then f + 1
  else if f % 2 = 0 then f else f + 1

/-- The Python fixed-point format spec w.pf on a float x: round the
absolute value to p decimals with ties to even, render with exactly p
decimals (no decimal point when p = 0), prepend the sign, then
right-align to a minimum width of w by left-padding with spaces.
The width is a minimum only: longer renderings are not truncated. -/
def fmtFixed (w p : ℕ) (x : ℚ) : String :=
  let n : ℕ := roundHalfEvenNat (x.num.natAbs * 10 ^ p) x.den
  let digitsStr :=
    if p = 0 then toString n
    else toString (n / 10 ^ p) ++ "." ++ padLeft '0' p (toString (n % 10 ^ p))
  padLeft ' ' w ((if x.num < 0 then "-" else "") ++ digitsStr)

/-- The second display line rendered by display_thread (app.py lines
141-149): when the dict is empty (Python falsy), the fixed placeholder;
otherwise temperature and humidity at format 2.1f and the comfort index at
format 4.0f.  A missing key would raise KeyError, modelled as none. -/
def display_line2 (data : Store) : Option String :=
  if data.isEmpty then some "--.-C --.-% ----"
  else
    match storeGet data "temperature", storeGet data "humidity" with
    | some t, some h =>
        some (fmtFixed 2 1 t ++ "C " ++ fmtFixed 2 1 h ++ "% " ++
              fmtFixed 4 0 (calc_tdi t h))
    | _, _ => none

/-- One record sent to InfluxDB by InfluxWriter.write (app.py lines
49-53): the Point name and the fields added to it, one per item of the
values dict, in iteration order. -/
structure PublishRec where
  name : String
  fields : List (String × ℚ)
deriving DecidableEq

/-- InfluxWriter.write (app.py lines 49-53): build a Point from the given
name, add one field per item of the values dict, and send it.  It is
called unconditionally on every send_data_thread tick, whatever the state
of the dict. -/
def influx_write (point : String) (values : Store) : PublishRec :=
  { name := point, fields := values }

/-- One observable step of the system at tick granularity: a
measurement_thread tick with the outcome of bme280.read_all (none models
a raised hardware exception), a display_thread tick (ok = false models a
raised display bus exception), or a send_data_thread tick (ok = false
models a raised network exception). -/
inductive Ev
  | meas (res : Option Reading)
  | disp (ok : Bool)
  | send (ok : Bool)

/-- Global state of the three threads and the shared dict.  The dead
flags record that a thread has terminated by an unhandled exception: the
Python code has no try/except in any of the three loops, so a raised
exception ends that thread.  dispLog collects the second lines actually
written, sendLog the records actually sent.  errGetDict records a call of
get_dict on an absent reading, which would raise AttributeError. -/
structure Sys where
  store : Store
  sensorData : Option Reading
  acqDead : Bool
  dispDead : Bool
  sendDead : Bool
  dispLog : List String
  sendLog : List PublishRec
  errGetDict : Bool

/-- State at the start of control_thread (app.py lines 169-176): empty
dict, sensor data not yet read, all threads alive late. -/
def initSys : Sys :=
  { store := [], sensorData := none, acqDead := false, dispDead := false,
    sendDead := false, dispLog := [], sendLog := [], errGetDict := false }

/-- One measurement_thread tick (app.py lines 121-129): sensor.measure()
stores the reading in self.data; on a raised hardware exception the
thread dies; otherwise data.update(sensor.get_dict()) runs under the
lock. -/
def measStep (st : Sys) (res : Option Reading) : Sys :=
  if st.acqDead then st
  else
    match res with
    | none => { st with acqDead := true }
    | some r =>
        let sd := some r
        match get_dict sd with
        | none => { st with sensorData := sd, errGetDict := true }
        | some flds => { st with sensorData := sd, store := dictUpdate st.store flds }

/-- One display_thread tick (app.py lines 136-154): with no exception
handling, a raised display exception ends the thread; a missing dict key
would likewise raise and end the thread; otherwise the second line is
rendered and written. -/
def dispStep (st : Sys) (ok : Bool) : Sys :=
  if st.dispDead then st
  else if ok then
    match display_line2 st.store with
    | some line => { st with dispLog := st.dispLog ++ [line] }
    | none => { st with dispDead := true }
  else { st with dispDead := true }

/-- One send_data_thread tick (app.py lines 160-166): writer.write is
called with the series name measurement and the shared dict itself, on
every tick; a raised network exception ends the thread. -/
def sendStep (st : Sys) (ok : Bool) : Sys :=
  if st.sendDead then st
  else if ok then { st with sendLog := st.sendLog ++ [influx_write "measurement" st.store] }
  else { st with sendDead := true }

/-- Dispatch one event. -/
def stepSys (st : Sys) : Ev → Sys
  | .meas res => measStep st res
  | .disp ok => dispStep st ok
  | .send ok => sendStep st ok

/-- Run a sequence of tick events. -/
def runSys (st : Sys) : List Ev → Sys
  | [] => st
  | ev :: evs => runSys (stepSys st ev) evs

/-
Fine-grained model of the threads as sequences of atomic actions against
the single global lock (app.py line 29), the shared dict and the
capability devices.  A dict item read or write is one atomic action, an
i2c byte write is one atomic action, matching the granularity at which
the Python threads can interleave.
-/

/-- Atomic actions. -/
inductive Act
  | acq
  | rel
  | dwrite (k : String) (v : ℚ)
  | dread (k : String)
  | sensorRead
  | dispWrite
  | netPub

/-- State of the fine-grained machine: who holds the lock, the shared
dict, and the log of values observed by dict reads as (thread id, key,
value found). -/
structure FSys where
  lockHeld : Option ℕ
  store : Store
  obs : List (ℕ × String × Option ℚ)

/-- The fine-grained machine started as control_thread starts it: lock
free, dict empty, nothing observed. -/
def finit : FSys := { lockHeld := none, store := [], obs := [] }

/-- One atomic action by thread tid.  Acquiring is only possible when the
lock is free and releasing only by the holder (none models an invalid
schedule); dict reads and writes are possible whether or not the acting
thread holds the lock, which is exactly how Python threads behave. -/
def fstep (tid : ℕ) (a : Act) (s : FSys) : Option FSys :=
  match a with
  | .acq => match s.lockHeld with
      | none => some { s with lockHeld := some tid }
      | some _ => none
  | .rel => if s.lockHeld = some tid then some { s with lockHeld := none } else none
  | .dwrite k v => some { s with store := storeSet s.store k v }
  | .dread k => some { s with obs := s.obs ++ [(tid, k, storeGet s.store k)] }
  | .sensorRead => some s
  | .dispWrite => some s
  | .netPub => some s

/-- Run the threads (each a list of remaining actions) under an explicit
schedule naming which thread takes the next step. -/
def frun (s : FSys) (ps : List (List Act)) : List ℕ → Option FSys
  | [] => some s
  | t :: sched =>
      match ps[t]? with
      | some (a :: as) =>
          match fstep t a s with
          | some s' => frun s' (ps.set t as) sched
          | none => none
      | _ => none

/-- The actions of the store update in measurement_thread (app.py lines
123-124): with lock: data.update(sensor.get_dict()), the dict items
written one by one in the order get_dict lists them. -/
def updateProg (r : Reading) : List Act :=
  [.acq, .dwrite "temperature" r.temperature, .dwrite "humidity" r.humidity,
   .dwrite "pressure" r.pressure, .rel]

/-- The actions of Bme280Sensor.measure (app.py lines 101-103): the bus
read of the sensor runs inside with lock. -/
def measureActs : List Act := [.acq, .sensorRead, .rel]

/-- The actions of SO1602ADisplay.__send_command (app.py lines 61-63):
one i2c byte write inside with lock. -/
def sendCommandActs : List Act := [.acq, .dispWrite, .rel]

/-- The actions of SO1602ADisplay.__send_data over n bytes (app.py lines
65-68): n i2c byte writes inside with lock. -/
def sendDataActs (n : ℕ) : List Act := .acq :: (List.replicate n .dispWrite ++ [.rel])

/-- The shared-dict reads of one display_thread tick when the dict is
nonempty (app.py lines 141-147): two reads as arguments of calc_tdi, then
two more inside the f-string; none of them acquires the lock. -/
def dispTickReads : List Act :=
  [.dread "temperature", .dread "humidity", .dread "temperature", .dread "humidity"]

/-- The actions of one send_data_thread tick (app.py lines 160-161):
InfluxWriter.write iterates the items of the shared dict without the
lock, then performs the network write. -/
def publishActs (s : Store) : List Act := (storeKeys s).map Act.dread ++ [.netPub]

/-- Scan a single thread program and check that every dict read or write
happens while that thread holds the lock; the Bool argument is whether
the lock is held on entry. -/
def dictAccessesLocked : Bool → List Act → Bool
  | _, [] => true
  | _, .acq :: as => dictAccessesLocked true as
  | _, .rel :: as => dictAccessesLocked false as
  | h, .dwrite _ _ :: as => h && dictAccessesLocked h as
  | h, .dread _ :: as => h && dictAccessesLocked h as
  | h, .sensorRead :: as => dictAccessesLocked h as
  | h, .dispWrite :: as => dictAccessesLocked h as
  | h, .netPub :: as => dictAccessesLocked h as

/-- Scan a single thread program and check that every capability call
(sensor bus read, display byte write, network publish) happens while the
lock is NOT held by that thread. -/
def capsOutsideLock : Bool → List Act → Bool
  | _, [] => true
  | _, .acq :: as => capsOutsideLock true as
  | _, .rel :: as => capsOutsideLock false as
  | h, .dwrite _ _ :: as => capsOutsideLock h as
  | h, .dread _ :: as => capsOutsideLock h as
  | h, .sensorRead :: as => !h && capsOutsideLock h as
  | h, .dispWrite :: as => !h && capsOutsideLock h as
  | h, .netPub :: as => !h && capsOutsideLock h as

/-- The keys measurement_thread writes, in the order get_dict lists
them. -/
def K3 : List String := ["temperature", "humidity", "pressure"]

/-- A published record is well formed when its series name is
measurement and its field keys are those of the shared dict in one of
its two reachable shapes: still empty, or the three measurement keys. -/
def goodRec (rec : PublishRec) : Bool :=
  rec.name == "measurement" &&
    (storeKeys rec.fields == [] || storeKeys rec.fields == K3)

/-- Reachability invariant of the tick-level system: the dict key set is
empty or exactly the three measurement keys, get_dict has never been
applied to an absent reading, and every record sent so far is well
formed. -/
def SysInv (st : Sys) : Prop :=
  (storeKeys st.store = [] ∨ storeKeys st.store = K3) ∧
    st.errGetDict = false ∧ st.sendLog.all goodRec = true


/-
Helper lemmas about the tick-level machine and the dict key set.
-/

theorem runSys_append (st : Sys) (xs ys : List Ev) :
    runSys st (xs ++ ys) = runSys (runSys st xs) ys := by
  induction xs generalizing st with
  | nil => rfl
  | cons e es ih =>
      simp only [List.cons_append, runSys]
      exact ih (stepSys st e)

theorem stepSys_acqDead_frozen (st : Sys) (ev : Ev) (h : st.acqDead = true) :
    (stepSys st ev).acqDead = true ∧ (stepSys st ev).store = st.store := by
  cases ev with
  | meas res => simp [stepSys, measStep, h]
  | disp ok =>
      simp only [stepSys, dispStep]
      split
      · exact ⟨h, rfl⟩
      · split
        · split <;> exact ⟨h, rfl⟩
        · exact ⟨h, rfl⟩
  | send ok =>
      simp only [stepSys, sendStep]
      split
      · exact ⟨h, rfl⟩
      · split <;> exact ⟨h, rfl⟩

theorem runSys_acqDead_frozen (st : Sys) (evs : List Ev) (h : st.acqDead = true) :
    (runSys st evs).acqDead = true ∧ (runSys st evs).store = st.store := by
  induction evs generalizing st with
  | nil => exact ⟨h, rfl⟩
  | cons e es ih =>
      have h1 := stepSys_acqDead_frozen st e h
      have h2 := ih (stepSys st e) h1.1
      exact ⟨h2.1, h2.2.trans h1.2⟩

theorem stepSys_dispDead_frozen (st : Sys) (ev : Ev) (h : st.dispDead = true) :
    (stepSys st ev).dispDead = true ∧ (stepSys st ev).dispLog = st.dispLog := by
  cases ev with
  | meas res =>
      simp only [stepSys, measStep]
      split
      · exact ⟨h, rfl⟩
      · cases res with
        | none => exact ⟨h, rfl⟩
        | some r => exact ⟨h, rfl⟩
  | disp ok => simp [stepSys, dispStep, h]
  | send ok =>
      simp only [stepSys, sendStep]
      split
      · exact ⟨h, rfl⟩
      · split <;> exact ⟨h, rfl⟩

theorem runSys_dispDead_frozen (st : Sys) (evs : List Ev) (h : st.dispDead = true) :
    (runSys st evs).dispDead = true ∧ (runSys st evs).dispLog = st.dispLog := by
  induction evs generalizing st with
  | nil => exact ⟨h, rfl⟩
  | cons e es ih =>
      have h1 := stepSys_dispDead_frozen st e h
      have h2 := ih (stepSys st e) h1.1
      exact ⟨h2.1, h2.2.trans h1.2⟩

theorem stepSys_sendDead_frozen (st : Sys) (ev : Ev) (h : st.sendDead = true) :
    (stepSys st ev).sendDead = true ∧ (stepSys st ev).sendLog = st.sendLog := by
  cases ev with
  | meas res =>
      simp only [stepSys, measStep]
      split
      · exact ⟨h, rfl⟩
      · cases res with
        | none => exact ⟨h, rfl⟩
        | some r => exact ⟨h, rfl⟩
  | disp ok =>
      simp only [stepSys, dispStep]
      split
      · exact ⟨h, rfl⟩
      · split
        · split <;> exact ⟨h, rfl⟩
        · exact ⟨h, rfl⟩
  | send ok => simp [stepSys, sendStep, h]

theorem runSys_sendDead_frozen (st : Sys) (evs : List Ev) (h : st.sendDead = true) :
    (runSys st evs).sendDead = true ∧ (runSys st evs).sendLog = st.sendLog := by
  induction evs generalizing st with
  | nil => exact ⟨h, rfl⟩
  | cons e es ih =>
      have h1 := stepSys_sendDead_frozen st e h
      have h2 := ih (stepSys st e) h1.1
      exact ⟨h2.1, h2.2.trans h1.2⟩

theorem storeKeys_storeSet (s : Store) (k : String) (v : ℚ) :
    storeKeys (storeSet s k v) = insertKey (storeKeys s) k := by
  induction s with
  | nil => simp [storeSet, storeKeys, insertKey]
  | cons p rest ih =>
      obtain ⟨k', v'⟩ := p
      by_cases h : k' = k
      · subst h
        simp [storeSet, storeKeys, insertKey]
      · have hne : ¬k = k' := fun hk => h hk.symm
        simp only [storeSet, if_neg h, storeKeys, List.map_cons] at ih ⊢
        rw [ih]
        simp only [insertKey, List.mem_cons, hne, false_or]
        by_cases hm : k ∈ List.map Prod.fst rest
        · simp [hm]
        · simp [hm]

theorem storeKeys_dictUpdate (s : Store) (kvs : List (String × ℚ)) :
    storeKeys (dictUpdate s kvs) =
      kvs.foldl (fun ks kv => insertKey ks kv.1) (storeKeys s) := by
  induction kvs generalizing s with
  | nil => rfl
  | cons kv rest ih =>
      show storeKeys (dictUpdate (storeSet s kv.1 kv.2) rest) = _
      rw [ih, storeKeys_storeSet]
      rfl

theorem keys_update_good (s : Store) (r : Reading)
    (h : storeKeys s = [] ∨ storeKeys s = K3) :
    storeKeys (dictUpdate s (readingFields r)) = K3 := by
  rw [storeKeys_dictUpdate]
  rcases h with h | h <;> rw [h] <;> rfl

theorem sysInv_init : SysInv initSys :=
  ⟨Or.inl rfl, rfl, rfl⟩

theorem sysInv_step (st : Sys) (ev : Ev) (h : SysInv st) : SysInv (stepSys st ev) := by
  cases ev with
  | meas res =>
      simp only [stepSys, measStep]
      split
      · exact h
      · cases res with
        | none => exact ⟨h.1, h.2.1, h.2.2⟩
        | some r => exact ⟨Or.inr (keys_update_good st.store r h.1), h.2.1, h.2.2⟩
  | disp ok =>
      simp only [stepSys, dispStep]
      split
      · exact h
      · split
        · split <;> exact ⟨h.1, h.2.1, h.2.2⟩
        · exact ⟨h.1, h.2.1, h.2.2⟩
  | send ok =>
      simp only [stepSys, sendStep]
      split
      · exact h
      · split
        · refine ⟨h.1, h.2.1, ?_⟩
          simp only [List.all_append, h.2.2, Bool.true_and, List.all_cons,
            List.all_nil, Bool.and_true]
          rcases h.1 with hk | hk <;> simp [goodRec, influx_write, hk, K3]
        · exact ⟨h.1, h.2.1, h.2.2⟩

theorem sysInv_run (st : Sys) (evs : List Ev) (h : SysInv st) : SysInv (runSys st evs) := by
  induction evs generalizing st with
  | nil => exact h
  | cons e es ih => exact ih (stepSys st e) (sysInv_step st e h)

theorem keys_K3_step (st : Sys) (ev : Ev) (h : storeKeys st.store = K3) :
    storeKeys (stepSys st ev).store = K3 := by
  cases ev with
  | meas res =>
      simp only [stepSys, measStep]
      split
      · exact h
      · cases res with
        | none => exact h
        | some r => exact keys_update_good st.store r (Or.inr h)
  | disp ok =>
      simp only [stepSys, dispStep]
      split
      · exact h
      · split
        · split <;> exact h
        · exact h
  | send ok =>
      simp only [stepSys, sendStep]
      split
      · exact h
      · split <;> exact h

theorem keys_K3_run (st : Sys) (evs : List Ev) (h : storeKeys st.store = K3) :
    storeKeys (runSys st evs).store = K3 := by
  induction evs generalizing st with
  | nil => exact h
  | cons e es ih => exact ih (stepSys st e) (keys_K3_step st e h)

/-
Claim theorems.
-/

/-- C7: for every temperature T and humidity H the derived comfort index
calc_tdi equals 0.81*T + 0.01*H*(0.99*T - 14.3) + 46.3 exactly as an
arithmetic expression; at (25, 50) it evaluates deterministically to
71.775, which matches the formula result to a tolerance of 1e-9 (the
difference is zero in the exact rational model). -/
theorem C7_tdi_formula :
    (∀ T H : ℚ, calc_tdi T H = 0.81 * T + 0.01 * H * (0.99 * T - 14.3) + 46.3) ∧
      calc_tdi 25 50 = 71.775 ∧
      |calc_tdi 25 50 - (0.81 * 25 + 0.01 * 50 * (0.99 * 25 - 14.3) + 46.3)| < 1e-9 :=
  ⟨fun _ _ => rfl, by norm_num [calc_tdi], by norm_num [calc_tdi]⟩

/-- C9: in the measurement loop, get_dict is only applied to the reading
just stored by a successful measure, never to the absent initial value,
so the error branch of get_dict is unreachable in every run of the
system; and on a present reading, get_dict is total and returns exactly
the three-field record. -/
theorem C9_get_dict_safe :
    (∀ r : Reading,
        get_dict (some r) = some (readingFields r) ∧ (readingFields r).length = 3) ∧
      ∀ tr : List Ev, (runSys initSys tr).errGetDict = false :=
  ⟨fun _ => ⟨rfl, rfl⟩, fun tr => (sysInv_run initSys tr sysInv_init).2.1⟩

/-- C10: the shared dict starts with an empty key set; in every reachable
state its key set is either empty or exactly temperature, humidity,
pressure; and once the key set is the full three-key set it stays so for
every continuation, in particular it never returns to empty. -/
theorem C10_keys_invariant :
    storeKeys initSys.store = [] ∧
      (∀ tr : List Ev,
        storeKeys (runSys initSys tr).store = [] ∨
          storeKeys (runSys initSys tr).store = K3) ∧
      ∀ tr ys : List Ev, storeKeys (runSys initSys tr).store = K3 →
        storeKeys (runSys initSys (tr ++ ys)).store = K3 := by
  refine ⟨rfl, fun tr => (sysInv_run initSys tr sysInv_init).1, fun tr ys h => ?_⟩
  rw [runSys_append]
  exact keys_K3_run (runSys initSys tr) ys h

/-- Witness for C10: after one successful measurement the key set is the
full three-key set, and it remains so across further display and send
ticks. -/
theorem C10_keys_invariant_witness :
    storeKeys (runSys initSys
      ([Ev.meas (some ⟨1, 2, 3⟩)] ++ [Ev.disp true, Ev.send true])).store = K3 :=
  C10_keys_invariant.2.2 [Ev.meas (some ⟨1, 2, 3⟩)] [Ev.disp true, Ev.send true] rfl

/-- C4 counterexample: on the very first publication tick, with the
shared dict still empty (no measurement yet), the code still calls
writer.write and publishes a measurement record with no fields, so a
publication does happen for an absent snapshot, contrary to the claim
that nothing is published. -/
theorem C4_counterexample :
    (runSys initSys [Ev.send true]).sendLog = [{ name := "measurement", fields := [] }] ∧
      (runSys initSys [Ev.send true]).sendLog ≠ [] :=
  ⟨rfl, by decide⟩

/-- C4 amended: publish is called on every Publication Task tick
regardless of the state of the store, always with series name
measurement and with the store contents as fields verbatim: an empty
field set before the first update, and exactly the fields temperature,
humidity, pressure afterwards.  Every record ever published in any run
is of this shape. -/
theorem C4_publish_shape :
    (∀ tr : List Ev, ((runSys initSys tr).sendLog).all goodRec = true) ∧
      (runSys initSys [Ev.send true]).sendLog.length = 1 :=
  ⟨fun tr => (sysInv_run initSys tr sysInv_init).2.2, rfl⟩

/-- C2 counterexample: a display fault on the first Presentation tick
kills the display thread, so the following tick renders nothing, although
a continuing loop would have written the placeholder line; likewise a
publish fault on the first Publication tick kills the send thread and the
following tick publishes nothing.  The failing tick is therefore not
skipped-and-continued: the loop never runs again. -/
theorem C2_counterexample :
    (runSys initSys [Ev.disp false, Ev.disp true]).dispLog = [] ∧
      (runSys initSys [Ev.disp false, Ev.disp true]).dispDead = true ∧
      (runSys initSys [Ev.send false, Ev.send true]).sendLog = [] ∧
      (runSys initSys [Ev.send false, Ev.send true]).sendDead = true ∧
      display_line2 [] = some "--.-C --.-% ----" :=
  ⟨rfl, rfl, rfl, rfl, rfl⟩

/-- C2 amended: the loops contain no exception handling, so a display
fault or a publish fault terminates its own thread permanently: after the
fault that thread stays dead and produces no output in any continuation.
The failure stays local to that thread: the shared store is untouched,
the measurement thread still updates the store, and the other consumer
thread keeps working. -/
theorem C2_fault_kills_task :
    ∀ (xs : List Ev) (r : Reading),
      (runSys (stepSys initSys (Ev.disp false)) xs).dispDead = true ∧
      (runSys (stepSys initSys (Ev.disp false)) xs).dispLog = [] ∧
      (stepSys initSys (Ev.disp false)).store = initSys.store ∧
      (stepSys (stepSys initSys (Ev.disp false)) (Ev.meas (some r))).store =
        dictUpdate [] (readingFields r) ∧
      (stepSys (stepSys initSys (Ev.disp false)) (Ev.send true)).sendLog =
        [influx_write "measurement" []] ∧
      (runSys (stepSys initSys (Ev.send false)) xs).sendDead = true ∧
      (runSys (stepSys initSys (Ev.send false)) xs).sendLog = [] ∧
      (stepSys (stepSys initSys (Ev.send false)) (Ev.disp true)).dispLog =
        ["--.-C --.-% ----"] := by
  intro xs r
  have hd := runSys_dispDead_frozen (stepSys initSys (Ev.disp false)) xs rfl
  have hs := runSys_sendDead_frozen (stepSys initSys (Ev.send false)) xs rfl
  exact ⟨hd.1, hd.2, rfl, rfl, rfl, hs.1, hs.2, rfl⟩

/-- C6: when bme280.read_all raises after one successful measurement, the
acquisition thread terminates for good (it stays dead in every
continuation and performs no further update), the shared dict retains the
last stored reading indefinitely, and the Presentation and Publication
threads keep running on that retained value: the next display tick
renders it and the next send tick publishes it. -/
theorem C6_hardware_fault_stale_data :
    ∀ (r : Reading) (ys : List Ev),
      (runSys initSys [Ev.meas (some r), Ev.meas none]).acqDead = true ∧
      (runSys initSys [Ev.meas (some r), Ev.meas none]).store =
        dictUpdate [] (readingFields r) ∧
      (runSys (runSys initSys [Ev.meas (some r), Ev.meas none]) ys).acqDead = true ∧
      (runSys (runSys initSys [Ev.meas (some r), Ev.meas none]) ys).store =
        dictUpdate [] (readingFields r) ∧
      (stepSys (runSys initSys [Ev.meas (some r), Ev.meas none]) (Ev.disp true)).dispLog =
        (display_line2 (dictUpdate [] (readingFields r))).toList ∧
      (display_line2 (dictUpdate [] (readingFields r))).isSome = true ∧
      (stepSys (runSys initSys [Ev.meas (some r), Ev.meas none]) (Ev.send true)).sendLog =
        [influx_write "measurement" (dictUpdate [] (readingFields r))] := by
  intro r ys
  have hfrozen := runSys_acqDead_frozen (runSys initSys [Ev.meas (some r), Ev.meas none]) ys rfl
  exact ⟨rfl, rfl, hfrozen.1, hfrozen.2, rfl, rfl, rfl⟩

/-- C1 counterexample: a reader that takes its snapshot by two dict reads
without touching the lock, interleaved with two complete locked updates
(1,2,3) and then (4,5,6), observes temperature 1 together with humidity
5, a pair that belongs to neither update: a snapshot can mix fields of
two different updates because the reads do not hold the mutex. -/
theorem C1_counterexample :
    (frun finit
        [updateProg ⟨1, 2, 3⟩ ++ updateProg ⟨4, 5, 6⟩,
         [.dread "temperature", .dread "humidity"]]
        [0, 0, 0, 0, 0, 1, 0, 0, 0, 0, 0, 1]).map FSys.obs =
      some [(1, "temperature", some 1), (1, "humidity", some 5)] ∧
      ((some (1 : ℚ), some (5 : ℚ)) ≠
        (some (Reading.temperature ⟨1, 2, 3⟩), some (Reading.humidity ⟨1, 2, 3⟩))) ∧
      ((some (1 : ℚ), some (5 : ℚ)) ≠
        (some (Reading.temperature ⟨4, 5, 6⟩), some (Reading.humidity ⟨4, 5, 6⟩))) :=
  ⟨rfl, by decide, by decide⟩

/-- C1 amended: only the writes are protected: the store update in
measurement_thread performs its dict writes while holding the mutex, but
the dict reads of a display tick and of a publication tick are performed
without holding the mutex, so reads and writes of the shared value are
not all under the lock and a reader can interleave with updates. -/
theorem C1_writes_locked_reads_unlocked :
    (∀ r : Reading, dictAccessesLocked false (updateProg r) = true) ∧
      dictAccessesLocked false dispTickReads = false ∧
      ∀ r : Reading,
        dictAccessesLocked false (publishActs (dictUpdate [] (readingFields r))) = false :=
  ⟨fun _ => rfl, rfl, fun _ => rfl⟩

/-- C3 counterexample: the consumer holds the dict itself, not a copy: a
reader that reads temperature, then is interleaved by a full update, then
reads temperature again observes first 1 and then 4, so its use of the
snapshot after the update is affected by that update. -/
theorem C3_counterexample :
    (frun { lockHeld := none, store := dictUpdate [] (readingFields ⟨1, 2, 3⟩), obs := [] }
        [updateProg ⟨4, 5, 6⟩, [.dread "temperature", .dread "temperature"]]
        [1, 0, 0, 0, 0, 0, 1]).map FSys.obs =
      some [(1, "temperature", some 1), (1, "temperature", some 4)] ∧
      some (1 : ℚ) ≠ some (4 : ℚ) :=
  ⟨rfl, by decide⟩

/-- C3 amended: consumers read the shared dict by reference with no
copying, so for every pair of readings a and b, a reader interleaved with
an update from a to b observes the old value before the update and the
new value after it: later updates are visible to the subsequent use of
the so-called snapshot. -/
theorem C3_reads_alias_store :
    ∀ a b : Reading,
      (frun { lockHeld := none, store := dictUpdate [] (readingFields a), obs := [] }
          [updateProg b, [.dread "temperature", .dread "temperature"]]
          [1, 0, 0, 0, 0, 0, 1]).map FSys.obs =
        some [(1, "temperature", some a.temperature),
              (1, "temperature", some b.temperature)] :=
  fun _ _ => rfl

/-- C5 counterexample: the sensor bus read in Bme280Sensor.measure and
the display byte write in SO1602ADisplay.__send_command both execute
while holding the global lock, so the mutex IS held across capability
calls. -/
theorem C5_counterexample :
    capsOutsideLock false measureActs = false ∧
      capsOutsideLock false sendCommandActs = false :=
  ⟨rfl, rfl⟩

/-- C5 amended: the global lock doubles as the i2c bus lock: the sensor
read and every display byte write run while holding it; only the network
publish of a send tick runs outside the lock; the dict writes of the
store update also run under the lock. -/
theorem C5_lock_held_across_capability_calls :
    capsOutsideLock false measureActs = false ∧
      capsOutsideLock false sendCommandActs = false ∧
      capsOutsideLock false (sendDataActs 16) = false ∧
      (∀ r : Reading,
        capsOutsideLock false (publishActs (dictUpdate [] (readingFields r))) = true) ∧
      ∀ r : Reading, dictAccessesLocked false (updateProg r) = true :=
  ⟨rfl, rfl, rfl, fun _ => rfl, fun _ => rfl⟩

/-- C8 counterexample: the field widths 2 and 4 in the format specs are
minimum widths, not fixed widths: with temperature 5 the second line has
length 15 while with temperature 25 it has length 16, so the line length
is not the same across value ranges. -/
theorem C8_counterexample :
    display_line2 (dictUpdate [] (readingFields ⟨5, 50, 1000⟩)) =
        some "5.0C 50.0%   46" ∧
      display_line2 (dictUpdate [] (readingFields ⟨25, 50, 1000⟩)) =
        some "25.0C 50.0%   72" ∧
      ("5.0C 50.0%   46" : String).length = 15 ∧
      ("25.0C 50.0%   72" : String).length = 16 := by
  have h5 : calc_tdi 5 50 = mkRat 1827 40 := by
    rw [Rat.mkRat_eq_div]; norm_num [calc_tdi]
  have h25 : calc_tdi 25 50 = mkRat 2871 40 := by
    rw [Rat.mkRat_eq_div]; norm_num [calc_tdi]
  refine ⟨?_, ?_, by decide, by decide⟩
  · rw [show display_line2 (dictUpdate [] (readingFields ⟨5, 50, 1000⟩)) =
        some (fmtFixed 2 1 5 ++ "C " ++ fmtFixed 2 1 50 ++ "% " ++
              fmtFixed 4 0 (calc_tdi 5 50)) from rfl, h5]
    decide
  · rw [show display_line2 (dictUpdate [] (readingFields ⟨25, 50, 1000⟩)) =
        some (fmtFixed 2 1 25 ++ "C " ++ fmtFixed 2 1 50 ++ "% " ++
              fmtFixed 4 0 (calc_tdi 25 50)) from rfl, h25]
    decide

/-- C8 amended: when the dict is empty the second line is the fixed
placeholder; when a measurement is stored the line is temperature at one
decimal and minimum width 2, humidity at one decimal and minimum width 2,
and the comfort index at zero decimals and minimum width 4; since the
widths are only minimums the line length varies with the magnitude of the
values (length 15 at temperature 5 versus 16 at temperature 25). -/
theorem C8_line2_format :
    display_line2 [] = some "--.-C --.-% ----" ∧
      (∀ r : Reading, display_line2 (dictUpdate [] (readingFields r)) =
        some (fmtFixed 2 1 r.temperature ++ "C " ++ fmtFixed 2 1 r.humidity ++ "% " ++
              fmtFixed 4 0 (calc_tdi r.temperature r.humidity))) ∧
      (display_line2 (dictUpdate [] (readingFields ⟨5, 50, 1000⟩))).map String.length =
        some 15 ∧
      (display_line2 (dictUpdate [] (readingFields ⟨25, 50, 1000⟩))).map String.length =
        some 16 := by
  have h5 : calc_tdi 5 50 = mkRat 1827 40 := by
    rw [Rat.mkRat_eq_div]; norm_num [calc_tdi]
  have h25 : calc_tdi 25 50 = mkRat 2871 40 := by
    rw [Rat.mkRat_eq_div]; norm_num [calc_tdi]
  refine ⟨rfl, fun r => rfl, ?_, ?_⟩
  · rw [show display_line2 (dictUpdate [] (readingFields ⟨5, 50, 1000⟩)) =
        some (fmtFixed 2 1 5 ++ "C " ++ fmtFixed 2 1 50 ++ "% " ++
              fmtFixed 4 0 (calc_tdi 5 50)) from rfl, h5]
    decide
  · rw [show display_line2 (dictUpdate [] (readingFields ⟨25, 50, 1000⟩)) =
        some (fmtFixed 2 1 25 ++ "C " ++ fmtFixed 2 1 50 ++ "% " ++
              fmtFixed 4 0 (calc_tdi 25 50)) from rfl, h25]
    decide
